import Mathlib

/-!
Shallow embedding of `app.py` (AI video title generator, a Streamlit app).

The app keeps a per-session mutable record (`st.session_state`) with four
fields, builds prompts from fixed templates, sends them to a remote
chat-completion API, and exports the accumulated text to an Excel workbook.
External effects (HTTP calls, audio extraction, speech transcription) are
modelled by explicit oracle parameters; each button handler is a function
from the session state (plus oracles) to a new state and a list of
observable events (API calls issued, error / success messages shown).
-/

/-- Python `str.isspace` on the characters `str.strip()` removes by default
(ASCII subset, which is all the app's checks ever meet). -/
def isPySpace (c : Char) : Bool :=
  c = ' ' || c = '\t' || c = '\n' || c = '\r' || c = '\x0b' || c = '\x0c'

/-- Python `str.strip()`: drop leading and trailing whitespace. -/
def pyStrip (s : String) : String :=
  String.mk (((s.data.dropWhile isPySpace).reverse.dropWhile isPySpace).reverse)

/-- Python `dict` lookup on an insertion-ordered association list
(`key in d` plus `d[key]`). -/
def dictLookup : List (String × String) → String → Option String
  | [], _ => none
  | (k, v) :: rest, key => if k = key then some v else dictLookup rest key

/-- Python `d[key] = value` on an insertion-ordered association list:
overwrite in place if the key exists, else append. -/
def dictInsert (d : List (String × String)) (key value : String) :
    List (String × String) :=
  if d.any (fun p => p.1 = key) then
    d.map (fun p => if p.1 = key then (key, value) else p)
  else
    d ++ [(key, value)]

/-- `st.session_state` of `app.py` lines 46-53: transcript text, the
two-model generation result (absent until first generation), manually
entered titles, and the per-platform titles dict. -/
structure GeneratedTitles where
  deepseek : Option String
  mistral : Option String
  deriving DecidableEq, Repr

structure SessionState where
  transcribed_text : String
  generated_titles : Option GeneratedTitles
  manual_titles : String
  platform_titles : List (String × String)
  deriving DecidableEq, Repr

/-- Initial session state (`app.py` lines 46-53): all fields empty. -/
def initialSessionState : SessionState :=
  { transcribed_text := "", generated_titles := none,
    manual_titles := "", platform_titles := [] }

/-- `OPENROUTER_API_KEY = st.secrets.get("openrouter_api_key", "")`
(`app.py` line 57): a missing secret yields `""`, never an exception. -/
def readApiKey (secrets : String → Option String) : String :=
  (secrets "openrouter_api_key").getD ""

/-- App startup: the initial session state and the credential read.  Total,
so the program starts whatever the secret store holds. -/
def startup (secrets : String → Option String) : SessionState × String :=
  (initialSessionState, readApiKey secrets)

/-- `MODELS` registry (`app.py` lines 60-63). -/
def MODELS : List (String × String) :=
  [("deepseek", "deepseek/deepseek-r1:free"),
   ("mistral", "mistralai/mistral-7b-instruct")]

/-- Outcome of one HTTP POST to the chat-completion endpoint: the status
code and, when the body parses, `choices[0].message.content`. -/
structure HttpResponse where
  status_code : Nat
  content : Option String
  deriving DecidableEq, Repr

/-- Oracle for `requests.post`: maps (prompt, model name) to either a
raised network error or an `HttpResponse`. -/
def ApiOracle : Type := String → String → Except String HttpResponse

/-- `call_openrouter_api` (`app.py` lines 108-136): returns the first
choice's content on HTTP 200, shows an error and returns `None` on any
other status, raised exception, or unparsable body.  No exception escapes. -/
def call_openrouter_api (api : ApiOracle) (prompt model_name : String) :
    Option String :=
  match api prompt model_name with
  | Except.error _ => none
  | Except.ok response =>
      if response.status_code = 200 then response.content else none

/-- Text before `{text}` in the f-string of `generate_titles`
(`app.py` lines 140-151). -/
def generateHead : String :=
  "基于以下视频内容，生成5个吸引眼球的标题。标题要简洁有力，能吸引用户点击。\n\n视频内容：\n"

/-- Text after `{text}` in the f-string of `generate_titles`. -/
def generateTail : String :=
  "\n\n要求：\n1. 每个标题一行\n2. 标题长度 15-30 个字\n3. 避免重复\n4. 只返回标题，不要其他解释\n\n标题列表："

/-- The prompt built by `generate_titles` (`app.py` lines 140-151). -/
def generate_prompt (text : String) : String :=
  generateHead ++ text ++ generateTail

/-- `generate_titles` (`app.py` lines 138-169): one prompt, two sequential
API calls, one result slot per model (each `None` on failure). -/
def generate_titles (api : ApiOracle) (text : String) : GeneratedTitles :=
  { deepseek := call_openrouter_api api (generate_prompt text) "deepseek",
    mistral := call_openrouter_api api (generate_prompt text) "mistral" }

/-- `platform_prompts["douyin"]` up to `{text}` (`app.py` lines 174-185),
trailing spaces of the blank line included. -/
def douyinHead : String :=
  "根据以下内容，生成3个适合抖音的标题。\n        \n特点要求：\n- 15秒内能讲完的爆款内容\n- 制造悬念和FOMO感\n- 年轻、活力的语言风格\n- 可以使用表情符号\n- 例如：\"震撼！我发现了...\"、\"你绝对没看过的...\"\n\n内容："

/-- `platform_prompts["wechat"]` up to `{text}` (`app.py` lines 187-198). -/
def wechatHead : String :=
  "根据以下内容，生成3个适合微信视频号的标题。\n\n特点要求：\n- 温和、专业、有信任感\n- 包含故事感和情感连接\n- 微信生态友好\n- 适合各年龄段观看\n- 例如：\"深度分享｜为什么...\"、\"这个方法改变了我...\"\n\n内容："

/-- `platform_prompts["xiaohongshu"]` up to `{text}` (`app.py` lines 200-211). -/
def xiaohongshuHead : String :=
  "根据以下内容，生成3个适合小红书的标题。\n\n特点要求：\n- 包含 # 话题标签\n- 种草、推荐的风格\n- 亲近感强，像朋友推荐\n- 可以使用emoji\n- 例如：\"#分享 这个真的绝了！...\"、\"姐妹们必看｜...\"\n\n内容："

/-- Shared text after `{text}` in all three platform templates. -/
def platformTail : String := "\n\n只返回标题，每行一个："

/-- `platform_prompts.get(platform, "").format(text=text)`
(`app.py` line 214): the selected template with the content spliced in,
or `""` for a selector outside the dict. -/
def platform_prompt (platform text : String) : String :=
  if platform = "douyin" then douyinHead ++ text ++ platformTail
  else if platform = "wechat" then wechatHead ++ text ++ platformTail
  else if platform = "xiaohongshu" then xiaohongshuHead ++ text ++ platformTail
  else ""

/-- `adapt_for_platform` (`app.py` lines 171-215): build the platform
prompt and send it to the mistral model. -/
def adapt_for_platform (api : ApiOracle) (text platform : String) :
    Option String :=
  call_openrouter_api api (platform_prompt platform text) "mistral"

/-- One data row of the exported worksheet: column A (content type),
column B (title text, word-wrapped). -/
structure XRow where
  contentType : String
  title : String
  wrapText : Bool
  deriving DecidableEq, Repr

/-- The workbook built by `create_excel_file`: sheet title, column widths,
styled header row, then the data rows in order. -/
structure Worksheet where
  sheetTitle : String
  widthA : Nat
  widthB : Nat
  headerA : String
  headerB : String
  headerFillColor : String
  headerFontColor : String
  headerFontBold : Bool
  rows : List XRow
  deriving DecidableEq, Repr

/-- `platform_names` (`app.py` lines 255-259), in insertion order, which is
the iteration order of the export loop. -/
def platform_names : List (String × String) :=
  [("douyin", "抖音版本"), ("wechat", "视频号版本"), ("xiaohongshu", "小红书版本")]

/-- One iteration of the export loop (`app.py` lines 261-266): a row is
appended iff the platform key is present with a truthy (non-empty) value. -/
def platformExportRow (platform_results : List (String × String))
    (key label : String) : Option XRow :=
  match dictLookup platform_results key with
  | some v => if v = "" then none else some ⟨label, v, true⟩
  | none => none

/-- `create_excel_file` (`app.py` lines 217-272): fixed sheet name, widths
and header styling, then the transcript row, the manual-titles row when
`manual_titles.strip()` is truthy, then one row per `platform_names` entry
whose key is present in `platform_results` with a non-empty value. -/
def create_excel_file (original_text manual_titles : String)
    (platform_results : List (String × String)) : Worksheet :=
  { sheetTitle := "视频标题",
    widthA := 20, widthB := 50,
    headerA := "内容类型", headerB := "标题",
    headerFillColor := "4472C4", headerFontColor := "FFFFFF",
    headerFontBold := true,
    rows :=
      [⟨"原始转录文本", original_text, true⟩]
      ++ (if pyStrip manual_titles = "" then []
          else [⟨"手动输入标题", manual_titles, true⟩])
      ++ platform_names.filterMap
          (fun kn => platformExportRow platform_results kn.1 kn.2) }

/-- Deterministic rendering of a data row into the saved byte stream. -/
def serializeRow (r : XRow) : String :=
  r.contentType ++ "\t" ++ r.title ++ "\n"

/-- Deterministic rendering of the workbook into the saved byte stream
(`wb.save(output)` on `app.py` lines 268-272): a function of the workbook
value alone. -/
def serializeWorksheet (w : Worksheet) : String :=
  w.sheetTitle ++ "\n" ++ w.headerA ++ "\t" ++ w.headerB ++ "\n"
  ++ String.join (w.rows.map serializeRow)

/-- Observable events of one button handler: outbound calls and messages. -/
inductive Event where
  | apiCall (prompt model_name : String)
  | extractAudio
  | transcribeCall (audioPath : String)
  | errorMsg (msg : String)
  | successMsg (msg : String)
  deriving DecidableEq, Repr

/-- Whether an event is a visible error message. -/
def Event.isErrorMsg : Event → Bool
  | Event.errorMsg _ => true
  | _ => false

/-- `generate_btn` handler (`app.py` lines 334-342): reject empty text,
then reject a missing API key with a visible error, otherwise call both
models and overwrite `generated_titles` with the (possibly all-`None`)
result record. -/
def generateHandler (apiKey : String) (api : ApiOracle) (s : SessionState) :
    SessionState × List Event :=
  if pyStrip s.transcribed_text = "" then
    (s, [Event.errorMsg "❌ 请先输入或转录文本内容"])
  else if apiKey = "" then
    (s, [Event.errorMsg "❌ 未设置 OpenRouter API Key，请在 Streamlit Secrets 中配置"])
  else
    ({ s with generated_titles := some (generate_titles api s.transcribed_text) },
     [Event.apiCall (generate_prompt s.transcribed_text) "deepseek",
      Event.apiCall (generate_prompt s.transcribed_text) "mistral"])

/-- Platform button handler (`app.py` lines 378-409, one per platform):
reject empty text, else call `adapt_for_platform`; `if result:` is a Python
truthiness test, so only a non-`None`, non-empty result is stored into
`platform_titles[platform]` and acknowledged — `None` and `""` are both
silently dropped. -/
def platformHandler (api : ApiOracle) (platform : String) (s : SessionState) :
    SessionState × List Event :=
  if pyStrip s.transcribed_text = "" then
    (s, [Event.errorMsg "❌ 请先输入文本"])
  else
    match adapt_for_platform api s.transcribed_text platform with
    | some result =>
        if result = "" then
          (s, [Event.apiCall (platform_prompt platform s.transcribed_text) "mistral"])
        else
          ({ s with platform_titles := dictInsert s.platform_titles platform result },
           [Event.apiCall (platform_prompt platform s.transcribed_text) "mistral",
            Event.successMsg "✅ 完成"])
    | none =>
        (s, [Event.apiCall (platform_prompt platform s.transcribed_text) "mistral"])

/-- `transcribe_btn` handler (`app.py` lines 287-304).  The button exists
only when a file is uploaded (`videoFile` is `some`).  It extracts audio
(oracle `extractOutcome`), then transcribes (oracle `transcribeOutcome`);
`if transcribed:` on line 302 is a Python truthiness test, so only a
non-`None`, non-empty transcription overwrites `transcribed_text` and
shows the success message — an empty transcription is silently dropped.
No input-conflict check is made anywhere. -/
def transcribeHandler (videoFile : Option String)
    (extractOutcome : Option String)
    (transcribeOutcome : String → Option String) (s : SessionState) :
    SessionState × List Event :=
  match videoFile with
  | none => (s, [])
  | some _ =>
    match extractOutcome with
    | none => (s, [Event.extractAudio, Event.errorMsg "❌ 音频提取失败"])
    | some path =>
      match transcribeOutcome path with
      | none => (s, [Event.extractAudio, Event.transcribeCall path,
                     Event.errorMsg "❌ 转录出错"])
      | some t =>
          if t = "" then
            (s, [Event.extractAudio, Event.transcribeCall path])
          else
            ({ s with transcribed_text := t },
             [Event.extractAudio, Event.transcribeCall path,
              Event.successMsg "✅ 转录完成！"])

/-- Export button handler (`app.py` lines 435-450): reject empty text,
else build the workbook from exactly `transcribed_text`, `manual_titles`
and `platform_titles`, offered under a timestamped filename. -/
def exportAction (now : String) (s : SessionState) :
    Option (String × Worksheet) × List Event :=
  if pyStrip s.transcribed_text = "" then
    (none, [Event.errorMsg "❌ 没有转录文本"])
  else
    (some ("视频标题_" ++ now ++ ".xlsx",
           create_excel_file s.transcribed_text s.manual_titles s.platform_titles),
     [])

/-- The fixed set of column-A labels of the export. -/
def excelLabels : List String :=
  ["原始转录文本", "手动输入标题", "抖音版本", "视频号版本", "小红书版本"]

/-- Indicator: does `platform_results` hold a non-empty entry for `key`? -/
def countPlatform (platform_results : List (String × String)) (key : String) :
    Nat :=
  match dictLookup platform_results key with
  | some v => if v = "" then 0 else 1
  | none => 0

/-- Number of platforms among douyin/wechat/xiaohongshu whose entry is
present and non-empty. -/
def nonEmptyPlatformEntryCount (platform_results : List (String × String)) :
    Nat :=
  countPlatform platform_results "douyin"
  + countPlatform platform_results "wechat"
  + countPlatform platform_results "xiaohongshu"

/-- `text` occurs verbatim as a substring of `s`. -/
def containsVerbatim (s text : String) : Prop :=
  ∃ pre post, s = pre ++ text ++ post

/-! ## Helper lemmas -/

lemma append_ne_empty_left (a b : String) (h : a ≠ "") : a ++ b ≠ "" := by
  intro hc
  apply h
  have hd := congrArg String.data hc
  rw [String.data_append] at hd
  simp only [List.append_eq_nil] at hd
  exact String.ext hd.1

lemma pyStrip_empty : pyStrip "" = "" := rfl

lemma platformExportRow_congr (p q : List (String × String)) (key label : String)
    (h : dictLookup p key = dictLookup q key) :
    platformExportRow p key label = platformExportRow q key label := by
  unfold platformExportRow
  rw [h]

lemma platformExportRow_label (p : List (String × String)) (key label : String)
    (r : XRow) (h : platformExportRow p key label = some r) :
    r.contentType = label := by
  unfold platformExportRow at h
  split at h
  next v heq =>
    split at h
    · exact absurd h (by simp)
    · simp only [Option.some.injEq] at h
      rw [← h]
  next => exact absurd h (by simp)

lemma platformExportRow_length (p : List (String × String)) (key label : String) :
    ((platformExportRow p key label).toList).length = countPlatform p key := by
  unfold platformExportRow countPlatform
  cases dictLookup p key with
  | none => rfl
  | some v => by_cases hv : v = "" <;> simp [hv]

lemma create_excel_rows (t m : String) (p : List (String × String)) :
    (create_excel_file t m p).rows
      = [⟨"原始转录文本", t, true⟩]
        ++ (if pyStrip m = "" then [] else [⟨"手动输入标题", m, true⟩])
        ++ ((platformExportRow p "douyin" "抖音版本").toList
            ++ ((platformExportRow p "wechat" "视频号版本").toList
                ++ (platformExportRow p "xiaohongshu" "小红书版本").toList)) := by
  simp only [create_excel_file, platform_names, List.filterMap_cons, List.filterMap_nil]
  cases platformExportRow p "douyin" "抖音版本" <;>
    cases platformExportRow p "wechat" "视频号版本" <;>
      cases platformExportRow p "xiaohongshu" "小红书版本" <;> simp

/-! ## Claim theorems -/

/-- C3: for the title-generation prompt and each of the douyin, wechat and
xiaohongshu platform templates, the built prompt is a non-empty string that
contains the content text verbatim as a substring.  Determinism is
definitional: both builders are pure functions of (content, selector). -/
theorem prompt_builder_nonempty_contains_text (text : String) :
    (generate_prompt text ≠ "" ∧ containsVerbatim (generate_prompt text) text)
    ∧ (platform_prompt "douyin" text ≠ ""
        ∧ containsVerbatim (platform_prompt "douyin" text) text)
    ∧ (platform_prompt "wechat" text ≠ ""
        ∧ containsVerbatim (platform_prompt "wechat" text) text)
    ∧ (platform_prompt "xiaohongshu" text ≠ ""
        ∧ containsVerbatim (platform_prompt "xiaohongshu" text) text) := by
  have hd : platform_prompt "douyin" text = douyinHead ++ text ++ platformTail := by
    simp [platform_prompt]
  have hw : platform_prompt "wechat" text = wechatHead ++ text ++ platformTail := by
    simp [platform_prompt]
  have hx : platform_prompt "xiaohongshu" text
      = xiaohongshuHead ++ text ++ platformTail := by
    simp [platform_prompt]
  refine ⟨⟨?_, generateHead, generateTail, rfl⟩,
          ⟨?_, douyinHead, platformTail, hd⟩,
          ⟨?_, wechatHead, platformTail, hw⟩,
          ⟨?_, xiaohongshuHead, platformTail, hx⟩⟩
  · exact append_ne_empty_left _ _
      (append_ne_empty_left generateHead text (by decide))
  · rw [hd]
    exact append_ne_empty_left _ _
      (append_ne_empty_left douyinHead text (by decide))
  · rw [hw]
    exact append_ne_empty_left _ _
      (append_ne_empty_left wechatHead text (by decide))
  · rw [hx]
    exact append_ne_empty_left _ _
      (append_ne_empty_left xiaohongshuHead text (by decide))

/-- C8: for a platform selector outside douyin/wechat/xiaohongshu,
`adapt_for_platform` rejects nothing: the built prompt is the empty string
(so the content text does not appear in it), one API call is still issued
with that empty prompt, and the result is whatever that call returns. -/
theorem adapt_unknown_platform_empty_prompt (api : ApiOracle)
    (text platform : String) (s : SessionState)
    (h1 : platform ≠ "douyin") (h2 : platform ≠ "wechat")
    (h3 : platform ≠ "xiaohongshu")
    (ht : ¬ pyStrip s.transcribed_text = "") :
    platform_prompt platform text = ""
    ∧ (text ≠ "" → ¬ containsVerbatim (platform_prompt platform text) text)
    ∧ adapt_for_platform api text platform = call_openrouter_api api "" "mistral"
    ∧ Event.apiCall "" "mistral" ∈ (platformHandler api platform s).2 := by
  have hpp : ∀ u : String, platform_prompt platform u = "" := by
    intro u
    simp [platform_prompt, h1, h2, h3]
  refine ⟨hpp text, ?_, ?_, ?_⟩
  · rintro htext ⟨pre, post, hc⟩
    rw [hpp text] at hc
    have hdata := congrArg String.data hc.symm
    rw [String.data_append, String.data_append] at hdata
    simp only [List.append_eq_nil] at hdata
    exact htext (String.ext hdata.1.2)
  · unfold adapt_for_platform
    rw [hpp text]
  · unfold platformHandler
    rw [if_neg ht]
    cases hres : adapt_for_platform api s.transcribed_text platform with
    | none => simp [hres, hpp s.transcribed_text]
    | some v =>
        by_cases hv : v = "" <;> simp [hres, hv, hpp s.transcribed_text]

/-- Witness for C8 at platform "weibo". -/
theorem adapt_unknown_platform_empty_prompt_witness :
    platform_prompt "weibo" "微博内容" = ""
    ∧ adapt_for_platform (fun _ _ => Except.error "network") "微博内容" "weibo"
        = call_openrouter_api (fun _ _ => Except.error "network") "" "mistral" :=
  have h := adapt_unknown_platform_empty_prompt
    (fun _ _ => Except.error "network") "微博内容" "weibo"
    { transcribed_text := "微博内容", generated_titles := none,
      manual_titles := "", platform_titles := [] }
    (by decide) (by decide) (by decide) (by decide)
  ⟨h.1, h.2.2.1⟩

/-- C1: the export has exactly 1 transcript row, plus 1 manual-titles row
when the manual string is non-empty after stripping, plus 1 row per
platform among douyin/wechat/xiaohongshu with a present non-empty entry;
column A of every data row is one of the five fixed labels.  Concretely,
with empty manual titles and douyin ↦ "X" the export has exactly 2 data
rows and no manual-titles row. -/
theorem create_excel_row_count_and_labels (t m : String)
    (p : List (String × String)) :
    (create_excel_file t m p).rows.length
      = 1 + (if pyStrip m = "" then 0 else 1) + nonEmptyPlatformEntryCount p
    ∧ (∀ r ∈ (create_excel_file t m p).rows, r.contentType ∈ excelLabels)
    ∧ (create_excel_file t "" [("douyin", "X")]).rows.length = 2
    ∧ (∀ r ∈ (create_excel_file t "" [("douyin", "X")]).rows,
        r.contentType ≠ "手动输入标题") := by
  have h1 : platformExportRow [("douyin", "X")] "douyin" "抖音版本"
      = some ⟨"抖音版本", "X", true⟩ := rfl
  have h2 : platformExportRow [("douyin", "X")] "wechat" "视频号版本" = none := rfl
  have h3 : platformExportRow [("douyin", "X")] "xiaohongshu" "小红书版本"
      = none := rfl
  refine ⟨?_, ?_, ?_, ?_⟩
  · rw [create_excel_rows]
    simp only [List.length_append, List.length_singleton, platformExportRow_length,
      nonEmptyPlatformEntryCount]
    by_cases hm : pyStrip m = "" <;> simp [hm] <;> omega
  · intro r hr
    rw [create_excel_rows] at hr
    rcases List.mem_append.1 hr with hab | hcde
    · rcases List.mem_append.1 hab with ha | hb
      · simp only [List.mem_singleton] at ha
        rw [ha]
        show "原始转录文本" ∈ excelLabels
        decide
      · by_cases hm : pyStrip m = ""
        · rw [if_pos hm] at hb
          exact absurd hb (by simp)
        · rw [if_neg hm] at hb
          simp only [List.mem_singleton] at hb
          rw [hb]
          show "手动输入标题" ∈ excelLabels
          decide
    · rcases List.mem_append.1 hcde with hc | hde
      · have hl := platformExportRow_label p "douyin" "抖音版本" r
          (by rwa [Option.mem_toList, Option.mem_def] at hc)
        rw [hl]; decide
      · rcases List.mem_append.1 hde with hd | he
        · have hl := platformExportRow_label p "wechat" "视频号版本" r
            (by rwa [Option.mem_toList, Option.mem_def] at hd)
          rw [hl]; decide
        · have hl := platformExportRow_label p "xiaohongshu" "小红书版本" r
            (by rwa [Option.mem_toList, Option.mem_def] at he)
          rw [hl]; decide
  · rw [create_excel_rows, h1, h2, h3]
    simp [pyStrip_empty]
  · intro r hr
    rw [create_excel_rows, h1, h2, h3] at hr
    simp [pyStrip_empty] at hr
    rcases hr with rfl | rfl <;> simp

/-- C9: the data rows always appear in the fixed order transcript,
manual-titles (when present), douyin, wechat, xiaohongshu; they depend only
on the mapping's lookups at those three keys, so insertion order of the
platform dict is irrelevant and keys outside the three never yield a row. -/
theorem export_rows_fixed_order (t m : String) (p q : List (String × String))
    (hd : dictLookup p "douyin" = dictLookup q "douyin")
    (hw : dictLookup p "wechat" = dictLookup q "wechat")
    (hx : dictLookup p "xiaohongshu" = dictLookup q "xiaohongshu") :
    (create_excel_file t m p).rows = (create_excel_file t m q).rows
    ∧ (create_excel_file t m p).rows
      = [⟨"原始转录文本", t, true⟩]
        ++ (if pyStrip m = "" then [] else [⟨"手动输入标题", m, true⟩])
        ++ ((platformExportRow p "douyin" "抖音版本").toList
            ++ ((platformExportRow p "wechat" "视频号版本").toList
                ++ (platformExportRow p "xiaohongshu" "小红书版本").toList)) := by
  refine ⟨?_, create_excel_rows t m p⟩
  rw [create_excel_rows t m p, create_excel_rows t m q,
      platformExportRow_congr p q "douyin" "抖音版本" hd,
      platformExportRow_congr p q "wechat" "视频号版本" hw,
      platformExportRow_congr p q "xiaohongshu" "小红书版本" hx]

/-- Witness for C9: a reordered platform dict with an extra unknown key
produces the same rows. -/
theorem export_rows_fixed_order_witness :
    (create_excel_file "演示文本" "" [("xiaohongshu", "C"), ("douyin", "A")]).rows
      = (create_excel_file "演示文本" ""
          [("douyin", "A"), ("weibo", "Z"), ("xiaohongshu", "C")]).rows :=
  (export_rows_fixed_order "演示文本" ""
    [("xiaohongshu", "C"), ("douyin", "A")]
    [("douyin", "A"), ("weibo", "Z"), ("xiaohongshu", "C")]
    (by decide) (by decide) (by decide)).1

/-- C4: the serialized spreadsheet bytes are a function of the transcript,
manual titles and platform titles alone; two export runs at different
timestamps on identical inputs produce identical bytes, only the download
filename differing. -/
theorem export_bytes_deterministic (now1 now2 : String) (s1 s2 : SessionState)
    (ht : s1.transcribed_text = s2.transcribed_text)
    (hm : s1.manual_titles = s2.manual_titles)
    (hp : s1.platform_titles = s2.platform_titles) :
    ((exportAction now1 s1).1.map (fun fw => serializeWorksheet fw.2))
      = ((exportAction now2 s2).1.map (fun fw => serializeWorksheet fw.2)) := by
  unfold exportAction
  rw [ht, hm, hp]
  by_cases hc : pyStrip s2.transcribed_text = "" <;> simp [hc]

/-- Witness for C4: two runs with different timestamps (and even different
generation results) yield the same bytes. -/
theorem export_bytes_deterministic_witness :
    ((exportAction "20250101_000000"
        { transcribed_text := "正文", generated_titles := none,
          manual_titles := "手动标题", platform_titles := [("douyin", "A")] }).1.map
        (fun fw => serializeWorksheet fw.2))
      = ((exportAction "20251231_235959"
          { transcribed_text := "正文",
            generated_titles := some { deepseek := some "T", mistral := none },
            manual_titles := "手动标题",
            platform_titles := [("douyin", "A")] }).1.map
          (fun fw => serializeWorksheet fw.2)) :=
  export_bytes_deterministic "20250101_000000" "20251231_235959" _ _ rfl rfl rfl

/-- C10: the export never reads the model-comparison titles: two sessions
that agree on transcript, manual titles and platform titles (hence differ
at most in generated_titles) export identically. -/
theorem export_independent_of_generated_titles (now : String)
    (s1 s2 : SessionState)
    (ht : s1.transcribed_text = s2.transcribed_text)
    (hm : s1.manual_titles = s2.manual_titles)
    (hp : s1.platform_titles = s2.platform_titles) :
    exportAction now s1 = exportAction now s2 := by
  unfold exportAction
  rw [ht, hm, hp]

/-- Witness for C10: dropping the generated titles leaves the export
unchanged. -/
theorem export_independent_of_generated_titles_witness :
    exportAction "20251012_090000"
      { transcribed_text := "正文",
        generated_titles := some { deepseek := some "甲", mistral := some "乙" },
        manual_titles := "", platform_titles := [] }
      = exportAction "20251012_090000"
        { transcribed_text := "正文", generated_titles := none,
          manual_titles := "", platform_titles := [] } :=
  export_independent_of_generated_titles "20251012_090000" _ _ rfl rfl rfl

/-- Counterexample to C2: with a valid key and every API call answering
HTTP 500, the generate action does NOT leave `generated_titles` unset — it
overwrites the field with a record whose two entries are both `None`. -/
theorem generate_failure_sets_generated_titles_cex :
    ((generateHandler "sk-abc" (fun _ _ => Except.ok ⟨500, none⟩)
        { transcribed_text := "视频内容", generated_titles := none,
          manual_titles := "", platform_titles := [] }).1.generated_titles
      = some { deepseek := none, mistral := none })
    ∧ ({ transcribed_text := "视频内容", generated_titles := none,
         manual_titles := "", platform_titles := [] } :
        SessionState).generated_titles = none := by
  constructor
  · rfl
  · rfl

/-- C2 as amended: `call_openrouter_api` swallows non-2xx responses and
raised errors, returning `None`; a failing platform action leaves
`platform_titles` (and the whole state) untouched; the generate action,
however, assigns `generated_titles` a record whose per-model entries are
both `None` — no title text is stored, but the field itself is set. -/
theorem api_failure_leaves_titles_unpopulated (api : ApiOracle)
    (r : HttpResponse) (e prompt model_name platform apiKey : String)
    (s : SessionState)
    (hr : ¬ r.status_code = 200)
    (hapi : ∀ p m, api p m = Except.ok r)
    (hk : ¬ apiKey = "")
    (ht : ¬ pyStrip s.transcribed_text = "") :
    call_openrouter_api (fun _ _ => Except.ok r) prompt model_name = none
    ∧ call_openrouter_api (fun _ _ => Except.error e) prompt model_name = none
    ∧ platformHandler api platform s
        = (s, [Event.apiCall (platform_prompt platform s.transcribed_text) "mistral"])
    ∧ (generateHandler apiKey api s).1
        = { s with generated_titles := some { deepseek := none, mistral := none } } := by
  have hcall : ∀ p m, call_openrouter_api api p m = none := by
    intro p m
    unfold call_openrouter_api
    rw [hapi p m]
    simp [hr]
  refine ⟨?_, rfl, ?_, ?_⟩
  · unfold call_openrouter_api
    simp [hr]
  · unfold platformHandler
    rw [if_neg ht]
    have hres : adapt_for_platform api s.transcribed_text platform = none := by
      unfold adapt_for_platform
      exact hcall _ _
    rw [hres]
  · unfold generateHandler
    rw [if_neg ht, if_neg hk]
    simp [generate_titles, hcall]

/-- Witness for the amended C2 at a 404 response. -/
theorem api_failure_leaves_titles_unpopulated_witness :
    platformHandler (fun _ _ => Except.ok ⟨404, some "Not Found"⟩) "douyin"
        { transcribed_text := "正文", generated_titles := none,
          manual_titles := "", platform_titles := [] }
      = ({ transcribed_text := "正文", generated_titles := none,
           manual_titles := "", platform_titles := [] },
         [Event.apiCall (platform_prompt "douyin" "正文") "mistral"]) :=
  (api_failure_leaves_titles_unpopulated
    (fun _ _ => Except.ok ⟨404, some "Not Found"⟩) ⟨404, some "Not Found"⟩
    "timeout" "p" "deepseek" "douyin" "sk-abc"
    { transcribed_text := "正文", generated_titles := none,
      manual_titles := "", platform_titles := [] }
    (by decide) (fun _ _ => rfl) (by decide) (by decide)).2.2.1

/-- C5: a missing credential never aborts startup; the generate action
detects it lazily, shows a visible error, issues no API call and leaves
the state unchanged, so every other action behaves exactly as before. -/
theorem missing_api_key_lazy_nonfatal (secrets : String → Option String)
    (api : ApiOracle) (s : SessionState) (now platform : String)
    (habsent : secrets "openrouter_api_key" = none)
    (ht : ¬ pyStrip s.transcribed_text = "") :
    startup secrets = (initialSessionState, "")
    ∧ generateHandler (readApiKey secrets) api s
        = (s, [Event.errorMsg "❌ 未设置 OpenRouter API Key，请在 Streamlit Secrets 中配置"])
    ∧ (∀ p m, Event.apiCall p m ∉ (generateHandler (readApiKey secrets) api s).2)
    ∧ exportAction now ((generateHandler (readApiKey secrets) api s).1)
        = exportAction now s
    ∧ platformHandler api platform ((generateHandler (readApiKey secrets) api s).1)
        = platformHandler api platform s := by
  have hkey : readApiKey secrets = "" := by
    unfold readApiKey
    rw [habsent]
    rfl
  have hgen : generateHandler (readApiKey secrets) api s
      = (s, [Event.errorMsg "❌ 未设置 OpenRouter API Key，请在 Streamlit Secrets 中配置"]) := by
    unfold generateHandler
    rw [if_neg ht, hkey, if_pos rfl]
  refine ⟨?_, hgen, ?_, ?_, ?_⟩
  · unfold startup
    rw [hkey]
  · intro p m
    rw [hgen]
    simp
  · rw [hgen]
  · rw [hgen]

/-- Witness for C5 with an empty secret store. -/
theorem missing_api_key_lazy_nonfatal_witness :
    generateHandler (readApiKey fun _ => none) (fun _ _ => Except.error "down")
        { transcribed_text := "一段文字", generated_titles := none,
          manual_titles := "", platform_titles := [] }
      = ({ transcribed_text := "一段文字", generated_titles := none,
           manual_titles := "", platform_titles := [] },
         [Event.errorMsg "❌ 未设置 OpenRouter API Key，请在 Streamlit Secrets 中配置"]) :=
  (missing_api_key_lazy_nonfatal (fun _ => none) (fun _ _ => Except.error "down")
    { transcribed_text := "一段文字", generated_titles := none,
      manual_titles := "", platform_titles := [] }
    "20251012_101112" "douyin" rfl (by decide)).2.1

/-- Counterexample to C6: with free text already present ("已有文本") and a
file uploaded, triggering transcription is NOT rejected: audio extraction
and transcription both run, no error message is shown, and the transcript
is overwritten with the new transcription. -/
theorem transcribe_ignores_existing_text_cex :
    Event.extractAudio ∈ (transcribeHandler (some "demo.mp4") (some "tmp.wav")
        (fun _ => some "转录结果")
        { transcribed_text := "已有文本", generated_titles := none,
          manual_titles := "", platform_titles := [] }).2
    ∧ Event.transcribeCall "tmp.wav" ∈ (transcribeHandler (some "demo.mp4")
        (some "tmp.wav") (fun _ => some "转录结果")
        { transcribed_text := "已有文本", generated_titles := none,
          manual_titles := "", platform_titles := [] }).2
    ∧ (∀ e ∈ (transcribeHandler (some "demo.mp4") (some "tmp.wav")
        (fun _ => some "转录结果")
        { transcribed_text := "已有文本", generated_titles := none,
          manual_titles := "", platform_titles := [] }).2, e.isErrorMsg = false)
    ∧ (transcribeHandler (some "demo.mp4") (some "tmp.wav")
        (fun _ => some "转录结果")
        { transcribed_text := "已有文本", generated_titles := none,
          manual_titles := "", platform_titles := [] }).1.transcribed_text
      = "转录结果" := by
  refine ⟨?_, ?_, ?_, rfl⟩
  · decide
  · decide
  · decide

/-- C6 as amended: with both text and a file present, the transcribe action
is not rejected and no conflict error exists; it extracts audio and
transcribes, and a truthy (non-empty) transcription overwrites the
transcript with a success message, while an empty transcription is
silently dropped — in neither case is a conflict reported. -/
theorem transcribe_overwrites_despite_text (videoName path result : String)
    (s : SessionState) (tr tr0 : String → Option String)
    (_ht : ¬ pyStrip s.transcribed_text = "")
    (htr : tr path = some result) (hres : ¬ result = "")
    (htr0 : tr0 path = some "") :
    transcribeHandler (some videoName) (some path) tr s
      = ({ s with transcribed_text := result },
         [Event.extractAudio, Event.transcribeCall path,
          Event.successMsg "✅ 转录完成！"])
    ∧ (∀ e ∈ (transcribeHandler (some videoName) (some path) tr s).2,
        e.isErrorMsg = false)
    ∧ transcribeHandler (some videoName) (some path) tr0 s
      = (s, [Event.extractAudio, Event.transcribeCall path]) := by
  have hh : transcribeHandler (some videoName) (some path) tr s
      = ({ s with transcribed_text := result },
         [Event.extractAudio, Event.transcribeCall path,
          Event.successMsg "✅ 转录完成！"]) := by
    unfold transcribeHandler
    dsimp only
    rw [htr]
    dsimp only
    rw [if_neg hres]
  refine ⟨hh, ?_, ?_⟩
  · rw [hh]
    intro e he
    simp only [List.mem_cons, List.not_mem_nil, or_false] at he
    rcases he with rfl | rfl | rfl <;> rfl
  · unfold transcribeHandler
    dsimp only
    rw [htr0]
    dsimp only
    rw [if_pos rfl]

/-- Witness for the amended C6: a non-empty transcription overwrites the
pre-existing text. -/
theorem transcribe_overwrites_despite_text_witness :
    transcribeHandler (some "demo.mp4") (some "tmp.wav") (fun _ => some "新转录")
        { transcribed_text := "旧文本", generated_titles := none,
          manual_titles := "", platform_titles := [] }
      = ({ transcribed_text := "新转录", generated_titles := none,
           manual_titles := "", platform_titles := [] },
         [Event.extractAudio, Event.transcribeCall "tmp.wav",
          Event.successMsg "✅ 转录完成！"]) :=
  (transcribe_overwrites_despite_text "demo.mp4" "tmp.wav" "新转录"
    { transcribed_text := "旧文本", generated_titles := none,
      manual_titles := "", platform_titles := [] }
    (fun _ => some "新转录") (fun _ => some "") (by decide) rfl (by decide) rfl).1
